import Mathlib

/-!
Verification development for the word-boundary navigation and deletion core
of the editor command layer (word navigation commands, word deletion
commands) together with the word-operations core they invoke.

The command layer (MoveWordCommand, WordLeftCommand, WordRightCommand, the
CursorWord* command wirings, DeleteWordCommand, DeleteWordLeftCommand,
DeleteWordRightCommand and the DeleteWord* wirings) is embedded from the
source.  The word-operations core (character classifier, moveWordLeft,
moveWordRight, deleteWordLeft, deleteWordRight) is not part of the given
sources; those definitions are modelled from the specification, as marked
in their doc comments.
-/

/-- Character classes assigned to each code point, as in the data model:
Regular, Whitespace, WordSeparator. -/
inductive CharacterClass where
  | Regular
  | Whitespace
  | WordSeparator
deriving DecidableEq, Repr

/-- Modelled from the spec: the set of code points counting as whitespace
(space, tab, and standard Unicode whitespace); the exact Unicode whitespace
table is environment-dependent in the source, so a fixed standard list is
used here. -/
def whitespaceCodes : List Nat :=
  [9, 10, 11, 12, 13, 32, 133, 160, 5760,
   8192, 8193, 8194, 8195, 8196, 8197, 8198, 8199, 8200, 8201, 8202,
   8232, 8233, 8239, 8287, 12288]

/-- A code point is whitespace when it is in the fixed whitespace list. -/
def isWhitespaceCode (c : Nat) : Bool :=
  whitespaceCodes.contains c

/-- Modelled from the spec: direct (non-table) classification of a code
point: Whitespace if a whitespace code, WordSeparator if the character
appears in the configured separator set, Regular otherwise. -/
def classifyDirect (separators : List Nat) (c : Nat) : CharacterClass :=
  if isWhitespaceCode c then CharacterClass.Whitespace
  else if separators.contains c then CharacterClass.WordSeparator
  else CharacterClass.Regular

/-- Modelled from the spec: a word character classifier, holding the raw
separator set and a precomputed lookup table for the code points 0..255
(the ASCII range precomputation described in the classifier contract). -/
structure WordCharacterClassifier where
  wordSeparators : List Nat
  asciiMap : List CharacterClass
deriving DecidableEq, Repr

/-- Modelled from the spec: construction of a classifier from the raw
separator string (here: its list of code points), precomputing the 0..255
table. -/
def getMapForWordSeparators (separators : List Nat) : WordCharacterClassifier :=
  ⟨separators, (List.range 256).map (classifyDirect separators)⟩

/-- Classification of a code point by a classifier: table lookup for code
points below 256, direct computation above. -/
def WordCharacterClassifier.get (cls : WordCharacterClassifier) (c : Nat) : CharacterClass :=
  if c < 256 then cls.asciiMap.getD c (classifyDirect cls.wordSeparators c)
  else classifyDirect cls.wordSeparators c

/-- Modelled from the spec: the DEFAULT wordSeparators configuration value
(EditorOptions.wordSeparators.defaultValue is not under the given sources);
the spec describes it as the common punctuation set.  These are the code
points of the usual default separator string. -/
def defaultWordSeparators : List Nat :=
  [96, 126, 33, 64, 35, 36, 37, 94, 38, 42, 40, 41, 45, 61, 43, 91, 123,
   93, 125, 92, 124, 59, 58, 39, 34, 44, 46, 60, 62, 47, 63]

/-- A position in a text model: 1-based line number and column. -/
structure Position where
  lineNumber : Nat
  column : Nat
deriving DecidableEq, Repr

/-- A range in a text model, start to end in document order. -/
structure Range where
  startLineNumber : Nat
  startColumn : Nat
  endLineNumber : Nat
  endColumn : Nat
deriving DecidableEq, Repr

/-- The range whose start is position a and whose end is position b. -/
def mkRangePos (a b : Position) : Range :=
  ⟨a.lineNumber, a.column, b.lineNumber, b.column⟩

/-- The read-only line-oriented text buffer: a list of lines, each a list
of code units. -/
structure TextModel where
  lines : List (List Nat)
deriving DecidableEq, Repr

/-- Number of lines in the model. -/
def TextModel.getLineCount (m : TextModel) : Nat :=
  m.lines.length

/-- Content of the 1-based line ln (empty when out of range). -/
def TextModel.getLineContent (m : TextModel) (ln : Nat) : List Nat :=
  m.lines.getD (ln - 1) []

/-- Max column of the 1-based line ln: 1 + number of code units. -/
def TextModel.getLineMaxColumn (m : TextModel) (ln : Nat) : Nat :=
  (m.getLineContent ln).length + 1

/-- The character classes of a line under a classifier. -/
def lineClasses (cls : WordCharacterClassifier) (m : TextModel) (ln : Nat) : List CharacterClass :=
  (m.getLineContent ln).map cls.get

/-- Class of the 0-based character index i of a line; out-of-range indices
read as Whitespace (the line break is treated as a whitespace transition). -/
def classAt (cs : List CharacterClass) (i : Nat) : CharacterClass :=
  cs.getD i CharacterClass.Whitespace

/-- The four word navigation policies. -/
inductive WordNavigationType where
  | WordStart
  | WordEnd
  | WordStartFast
  | WordAccessibility
deriving DecidableEq, Repr

/-- Modelled from the spec: column c (1-based) is a WordStart boundary of a
line when the character at c is Regular and is the first character of its
Regular run (preceded by line start or a non-Regular character). -/
def isWordStartBoundary (cs : List CharacterClass) (c : Nat) : Bool :=
  decide (1 ≤ c) && decide (c ≤ cs.length) &&
    decide (classAt cs (c - 1) = CharacterClass.Regular) &&
    (decide (c = 1) || decide (classAt cs (c - 2) ≠ CharacterClass.Regular))

/-- Modelled from the spec: column c is a WordEnd boundary when it sits
immediately after the last character of a Regular run (followed by line end
or a non-Regular character). -/
def isWordEndBoundary (cs : List CharacterClass) (c : Nat) : Bool :=
  decide (2 ≤ c) && decide (c ≤ cs.length + 1) &&
    decide (classAt cs (c - 2) = CharacterClass.Regular) &&
    (decide (c = cs.length + 1) || decide (classAt cs (c - 1) ≠ CharacterClass.Regular))

/-- Modelled from the spec: WordStartFast stops at the start of every
Regular run and of every WordSeparator run (separator runs are word units
of their own), and skips Whitespace runs silently. -/
def isWordStartFastBoundary (cs : List CharacterClass) (c : Nat) : Bool :=
  decide (1 ≤ c) && decide (c ≤ cs.length) &&
    decide (classAt cs (c - 1) ≠ CharacterClass.Whitespace) &&
    (decide (c = 1) || decide (classAt cs (c - 2) ≠ classAt cs (c - 1)))

/-- Modelled from the spec: the per-navigation-type stopping predicate of
the directional scan.  WordAccessibility scans like WordStart (its
distinguishing feature, the forced DEFAULT separator configuration, lives
in the command layer). -/
def boundaryStop : WordNavigationType → List CharacterClass → Nat → Bool
  | WordNavigationType.WordStart => isWordStartBoundary
  | WordNavigationType.WordEnd => isWordEndBoundary
  | WordNavigationType.WordStartFast => isWordStartFastBoundary
  | WordNavigationType.WordAccessibility => isWordStartBoundary

/-- The largest column strictly below col satisfying p, and 1 when no such
column exists (scanning left, falling back to line start). -/
def lastBoundaryBefore (p : Nat → Bool) (col : Nat) : Nat :=
  max (Nat.findGreatest (fun c => p c = true) (col - 1)) 1

/-- Scan the columns c, c+1, ..., c+n-1 upward for the first one satisfying
p. -/
def firstBoundaryFrom (p : Nat → Bool) : Nat → Nat → Option Nat
  | _, 0 => none
  | c, n + 1 => if p c then some c else firstBoundaryFrom p (c + 1) n

/-- The smallest column strictly above col and at most maxC satisfying p,
and maxC when no such column exists (scanning right, falling back to line
end). -/
def firstBoundaryIn (p : Nat → Bool) (col maxC : Nat) : Nat :=
  (firstBoundaryFrom p (col + 1) (maxC - col)).getD maxC

/-- Modelled from the spec: WordOperations.moveWordLeft (not under the
given sources).  At column 1 of line 1 the position is returned unchanged;
at column 1 of a later line the scan continues at the end of the previous
line (the line break acting as a whitespace transition); otherwise the scan
finds the nearest boundary of the navigation type strictly to the left on
the current line, falling back to column 1. -/
def WordOperations.moveWordLeft (wordSeparators : WordCharacterClassifier) (model : TextModel)
    (position : Position) (wordNavigationType : WordNavigationType) : Position :=
  let ln := position.lineNumber
  let col := position.column
  if col ≤ 1 then
    if ln ≤ 1 then position
    else
      let cs := lineClasses wordSeparators model (ln - 1)
      ⟨ln - 1, lastBoundaryBefore (boundaryStop wordNavigationType cs) (cs.length + 2)⟩
  else
    let cs := lineClasses wordSeparators model ln
    ⟨ln, lastBoundaryBefore (boundaryStop wordNavigationType cs) col⟩

/-- Modelled from the spec: WordOperations.moveWordRight (not under the
given sources).  At the max column of the last line the position is
returned unchanged; at the max column of an earlier line the scan continues
at column 1 of the next line; otherwise the scan finds the nearest boundary
of the navigation type strictly to the right on the current line, falling
back to the line's max column. -/
def WordOperations.moveWordRight (wordSeparators : WordCharacterClassifier) (model : TextModel)
    (position : Position) (wordNavigationType : WordNavigationType) : Position :=
  let ln := position.lineNumber
  let col := position.column
  if model.getLineMaxColumn ln ≤ col then
    if model.getLineCount ≤ ln then position
    else
      let cs := lineClasses wordSeparators model (ln + 1)
      ⟨ln + 1, firstBoundaryIn (boundaryStop wordNavigationType cs) 0 (cs.length + 1)⟩
  else
    let cs := lineClasses wordSeparators model ln
    ⟨ln, firstBoundaryIn (boundaryStop wordNavigationType cs) col (model.getLineMaxColumn ln)⟩

/-- A selection: anchor (selectionStart) and active end (position), each a
line/column pair, embedded from the source Selection value. -/
structure Selection where
  selectionStartLineNumber : Nat
  selectionStartColumn : Nat
  positionLineNumber : Nat
  positionColumn : Nat
deriving DecidableEq, Repr

/-- A selection is empty when its anchor and its active end coincide. -/
def Selection.isEmpty (s : Selection) : Bool :=
  decide (s.selectionStartLineNumber = s.positionLineNumber) &&
    decide (s.selectionStartColumn = s.positionColumn)

/-- The active-end position of a selection. -/
def Selection.getPosition (s : Selection) : Position :=
  ⟨s.positionLineNumber, s.positionColumn⟩

/-- The anchor position of a selection. -/
def Selection.getSelectionStart (s : Selection) : Position :=
  ⟨s.selectionStartLineNumber, s.selectionStartColumn⟩

/-- Document order on positions. -/
def posLeB (a b : Position) : Bool :=
  decide (a.lineNumber < b.lineNumber) ||
    (decide (a.lineNumber = b.lineNumber) && decide (a.column ≤ b.column))

/-- The range covered by a selection, normalized to document order (as the
Range constructor of the source normalizes its endpoints). -/
def Selection.toRange (s : Selection) : Range :=
  if posLeB s.getSelectionStart s.getPosition then
    mkRangePos s.getSelectionStart s.getPosition
  else
    mkRangePos s.getPosition s.getSelectionStart

/-- Options of a MoveWordCommand: inSelectionMode and wordNavigationType
(MoveWordOptions in the source). -/
structure MoveWordOptions where
  inSelectionMode : Bool
  wordNavigationType : WordNavigationType
deriving DecidableEq, Repr

/-- MoveWordCommand.moveTo, embedded from the source: in selection mode the
anchor is kept and only the active end moves to the target; otherwise the
whole selection collapses onto the target. -/
def MoveWordCommand.moveTo (f : Selection) (tgt : Position) (inSelectionMode : Bool) : Selection :=
  if inSelectionMode then
    ⟨f.selectionStartLineNumber, f.selectionStartColumn, tgt.lineNumber, tgt.column⟩
  else
    ⟨tgt.lineNumber, tgt.column, tgt.lineNumber, tgt.column⟩

/-- MoveWordCommand's per-selection step, embedded from the source: read
the active-end position, apply the command's move function with the
command's navigation type, and update the selection via moveTo. -/
def MoveWordCommand.runOne
    (mv : WordCharacterClassifier → TextModel → Position → WordNavigationType → Position)
    (opts : MoveWordOptions) (wordSeparators : WordCharacterClassifier) (model : TextModel)
    (sel : Selection) : Selection :=
  MoveWordCommand.moveTo sel
    (mv wordSeparators model ⟨sel.positionLineNumber, sel.positionColumn⟩ opts.wordNavigationType)
    opts.inSelectionMode

/-- WordLeftCommand's move function (calls WordOperations.moveWordLeft). -/
def WordLeftCommand.move (wordSeparators : WordCharacterClassifier) (model : TextModel)
    (position : Position) (wordNavigationType : WordNavigationType) : Position :=
  WordOperations.moveWordLeft wordSeparators model position wordNavigationType

/-- WordRightCommand's move function (calls WordOperations.moveWordRight). -/
def WordRightCommand.move (wordSeparators : WordCharacterClassifier) (model : TextModel)
    (position : Position) (wordNavigationType : WordNavigationType) : Position :=
  WordOperations.moveWordRight wordSeparators model position wordNavigationType

/-- Wiring of CursorWordLeft (the command carrying the Ctrl+Left default
keybinding), embedded from the source. -/
def CursorWordLeft.opts : MoveWordOptions :=
  ⟨false, WordNavigationType.WordStartFast⟩

/-- Wiring of CursorWordEndRight (the command carrying the Ctrl+Right
default keybinding), embedded from the source. -/
def CursorWordEndRight.opts : MoveWordOptions :=
  ⟨false, WordNavigationType.WordEnd⟩

/-- Wiring of CursorWordRight, embedded from the source. -/
def CursorWordRight.opts : MoveWordOptions :=
  ⟨false, WordNavigationType.WordEnd⟩

/-- Wiring of CursorWordAccessibilityLeft, embedded from the source. -/
def CursorWordAccessibilityLeft.opts : MoveWordOptions :=
  ⟨false, WordNavigationType.WordAccessibility⟩

/-- Wiring of CursorWordAccessibilityLeftSelect, embedded from the source. -/
def CursorWordAccessibilityLeftSelect.opts : MoveWordOptions :=
  ⟨true, WordNavigationType.WordAccessibility⟩

/-- Wiring of CursorWordAccessibilityRight, embedded from the source. -/
def CursorWordAccessibilityRight.opts : MoveWordOptions :=
  ⟨false, WordNavigationType.WordAccessibility⟩

/-- Wiring of CursorWordAccessibilityRightSelect, embedded from the source. -/
def CursorWordAccessibilityRightSelect.opts : MoveWordOptions :=
  ⟨true, WordNavigationType.WordAccessibility⟩

/-- The overridden move function of CursorWordAccessibilityLeft, embedded
from the source: it discards the classifier it is given and calls the
superclass move with the classifier built from the DEFAULT wordSeparators
configuration value. -/
def CursorWordAccessibilityLeft.move (_ws : WordCharacterClassifier) (model : TextModel)
    (position : Position) (wordNavigationType : WordNavigationType) : Position :=
  WordLeftCommand.move (getMapForWordSeparators defaultWordSeparators) model position
    wordNavigationType

/-- The overridden move function of CursorWordAccessibilityLeftSelect,
embedded from the source (identical body). -/
def CursorWordAccessibilityLeftSelect.move (_ws : WordCharacterClassifier) (model : TextModel)
    (position : Position) (wordNavigationType : WordNavigationType) : Position :=
  WordLeftCommand.move (getMapForWordSeparators defaultWordSeparators) model position
    wordNavigationType

/-- The overridden move function of CursorWordAccessibilityRight, embedded
from the source. -/
def CursorWordAccessibilityRight.move (_ws : WordCharacterClassifier) (model : TextModel)
    (position : Position) (wordNavigationType : WordNavigationType) : Position :=
  WordRightCommand.move (getMapForWordSeparators defaultWordSeparators) model position
    wordNavigationType

/-- The overridden move function of CursorWordAccessibilityRightSelect,
embedded from the source. -/
def CursorWordAccessibilityRightSelect.move (_ws : WordCharacterClassifier) (model : TextModel)
    (position : Position) (wordNavigationType : WordNavigationType) : Position :=
  WordRightCommand.move (getMapForWordSeparators defaultWordSeparators) model position
    wordNavigationType

/-- An auto-closing pair of an opening and a closing code point. -/
structure AutoClosingPairRec where
  openCh : Nat
  closeCh : Nat
deriving DecidableEq, Repr

/-- The code point at the 1-based column c of line ln (0 out of range). -/
def charAtColumn (m : TextModel) (ln c : Nat) : Nat :=
  (m.getLineContent ln).getD (c - 1) 0

/-- The deletion context: classifier, buffer, current selection,
whitespace-heuristics flag and the auto-closing-pair configuration
(DeleteWordContext in the source; the enabling configuration is collapsed
into a single flag). -/
structure DeleteWordContext where
  wordSeparators : WordCharacterClassifier
  model : TextModel
  selection : Selection
  whitespaceHeuristics : Bool
  autoClosingDelete : Bool
  autoClosingPairs : List AutoClosingPairRec
  autoClosedCharacters : List Position
deriving DecidableEq, Repr

/-- Modelled from the spec: the auto-closing-pair deletion test for
left-deletion.  It fires when the configuration enables it, the selection
is a collapsed cursor, the character immediately left of the cursor is the
opening character of a registered pair whose matching closing character is
immediately right of the cursor, and that closing character's position is
recorded as auto-inserted. -/
def isAutoClosingPairDelete (ctx : DeleteWordContext) : Bool :=
  ctx.autoClosingDelete && ctx.selection.isEmpty &&
    decide (2 ≤ ctx.selection.positionColumn) &&
    ctx.autoClosingPairs.any (fun pr =>
      decide (charAtColumn ctx.model ctx.selection.positionLineNumber
          (ctx.selection.positionColumn - 1) = pr.openCh) &&
      decide (charAtColumn ctx.model ctx.selection.positionLineNumber
          ctx.selection.positionColumn = pr.closeCh)) &&
    ctx.autoClosedCharacters.contains
      ⟨ctx.selection.positionLineNumber, ctx.selection.positionColumn⟩

/-- Length of the maximal run of whitespace code points ending at the
0-based index n (exclusive) of the line content, i.e. the number of
trailing whitespace characters of the length-n prefix. -/
def trailingWhitespaceLen (content : List Nat) : Nat → Nat
  | 0 => 0
  | n + 1 =>
    if isWhitespaceCode (content.getD n 0) then trailingWhitespaceLen content n + 1 else 0

/-- Length of the maximal run of whitespace code points starting at the
0-based index i of the line content (with fuel n). -/
def leadingWhitespaceLen (content : List Nat) : Nat → Nat → Nat
  | _, 0 => 0
  | i, n + 1 =>
    if isWhitespaceCode (content.getD i 0) && decide (i < content.length) then
      leadingWhitespaceLen content (i + 1) n + 1
    else 0

/-- Modelled from the spec: the leftward whitespace-heuristic shortcut.
When the run of at least two whitespace characters sits immediately left of
the cursor on its own line, exactly that run is the deletion range;
otherwise no shortcut applies. -/
def deleteWordLeftWhitespace (model : TextModel) (position : Position) : Option Range :=
  let k := trailingWhitespaceLen (model.getLineContent position.lineNumber) (position.column - 1)
  if 2 ≤ k then
    some ⟨position.lineNumber, position.column - k, position.lineNumber, position.column⟩
  else none

/-- Modelled from the spec: the rightward whitespace-heuristic shortcut.
When the run of at least two whitespace characters sits immediately right
of the cursor on its own line, exactly that run is the deletion range. -/
def deleteWordRightWhitespace (model : TextModel) (position : Position) : Option Range :=
  let content := model.getLineContent position.lineNumber
  let k := leadingWhitespaceLen content (position.column - 1) content.length
  if 2 ≤ k then
    some ⟨position.lineNumber, position.column, position.lineNumber, position.column + k⟩
  else none

/-- Modelled from the spec: WordOperations.deleteWordLeft (not under the
given sources).  A non-empty selection deletes itself; an enabled
auto-closing-pair deletion widens to the surrounding pair; at the document
start with nothing to delete the no-boundary signal (none) is returned;
with whitespace heuristics enabled an adjacent whitespace run is consumed
as one step; otherwise the range runs from the moveWordLeft boundary of the
requested navigation type to the cursor. -/
def WordOperations.deleteWordLeft (ctx : DeleteWordContext)
    (wordNavigationType : WordNavigationType) : Option Range :=
  if !ctx.selection.isEmpty then some ctx.selection.toRange
  else if isAutoClosingPairDelete ctx then
    some ⟨ctx.selection.positionLineNumber, ctx.selection.positionColumn - 1,
      ctx.selection.positionLineNumber, ctx.selection.positionColumn + 1⟩
  else
    let position := ctx.selection.getPosition
    if position.lineNumber = 1 ∧ position.column = 1 then none
    else if ctx.whitespaceHeuristics then
      match deleteWordLeftWhitespace ctx.model position with
      | some r => some r
      | none =>
        some (mkRangePos
          (WordOperations.moveWordLeft ctx.wordSeparators ctx.model position wordNavigationType)
          position)
    else
      some (mkRangePos
        (WordOperations.moveWordLeft ctx.wordSeparators ctx.model position wordNavigationType)
        position)

/-- Modelled from the spec: WordOperations.deleteWordRight (not under the
given sources).  A non-empty selection deletes itself; at the document end
with nothing to delete the no-boundary signal (none) is returned; with
whitespace heuristics enabled an adjacent whitespace run is consumed as one
step; otherwise the range runs from the cursor to the moveWordRight
boundary of the requested navigation type. -/
def WordOperations.deleteWordRight (ctx : DeleteWordContext)
    (wordNavigationType : WordNavigationType) : Option Range :=
  if !ctx.selection.isEmpty then some ctx.selection.toRange
  else
    let position := ctx.selection.getPosition
    if position.lineNumber = ctx.model.getLineCount ∧
        position.column = ctx.model.getLineMaxColumn position.lineNumber then none
    else if ctx.whitespaceHeuristics then
      match deleteWordRightWhitespace ctx.model position with
      | some r => some r
      | none =>
        some (mkRangePos position
          (WordOperations.moveWordRight ctx.wordSeparators ctx.model position wordNavigationType))
    else
      some (mkRangePos position
        (WordOperations.moveWordRight ctx.wordSeparators ctx.model position wordNavigationType))

/-- Options of a DeleteWordCommand: whitespaceHeuristics and
wordNavigationType (DeleteWordOptions in the source). -/
structure DeleteWordOptions where
  whitespaceHeuristics : Bool
  wordNavigationType : WordNavigationType
deriving DecidableEq, Repr

/-- DeleteWordLeftCommand's range computation, embedded from the source: on
the no-boundary signal it substitutes the zero-width range at (1,1),
otherwise it returns the core's range unchanged. -/
def DeleteWordLeftCommand.delete (ctx : DeleteWordContext)
    (wordNavigationType : WordNavigationType) : Range :=
  match WordOperations.deleteWordLeft ctx wordNavigationType with
  | some r => r
  | none => ⟨1, 1, 1, 1⟩

/-- DeleteWordRightCommand's range computation, embedded from the source:
on the no-boundary signal it substitutes the zero-width range at the last
line's max column, otherwise it returns the core's range unchanged. -/
def DeleteWordRightCommand.delete (ctx : DeleteWordContext)
    (wordNavigationType : WordNavigationType) : Range :=
  match WordOperations.deleteWordRight ctx wordNavigationType with
  | some r => r
  | none =>
    ⟨ctx.model.getLineCount, ctx.model.getLineMaxColumn ctx.model.getLineCount,
      ctx.model.getLineCount, ctx.model.getLineMaxColumn ctx.model.getLineCount⟩

/-- Wiring of the default DeleteWordLeft command, embedded from the source:
whitespace heuristics enabled, WordStart navigation. -/
def DeleteWordLeft.opts : DeleteWordOptions :=
  ⟨true, WordNavigationType.WordStart⟩

/-- Wiring of the default DeleteWordRight command, embedded from the
source: whitespace heuristics enabled, WordEnd navigation. -/
def DeleteWordRight.opts : DeleteWordOptions :=
  ⟨true, WordNavigationType.WordEnd⟩

/-- C10: for every starting selection and target position, MoveWordCommand's
selection update keeps the original anchor (selectionStartLineNumber and
selectionStartColumn) and moves only the active end to the target when in
selection mode, and collapses the selection onto the target when not in
selection mode. -/
theorem moveWordCommand_moveTo_frame (sel : Selection) (tgt : Position) :
    MoveWordCommand.moveTo sel tgt true =
      ⟨sel.selectionStartLineNumber, sel.selectionStartColumn, tgt.lineNumber, tgt.column⟩ ∧
    MoveWordCommand.moveTo sel tgt false =
      ⟨tgt.lineNumber, tgt.column, tgt.lineNumber, tgt.column⟩ :=
  ⟨rfl, rfl⟩

/-- C9: CursorWordRight and CursorWordEndRight are observationally
equivalent: both are wired with WordEnd navigation and inSelectionMode
false, and their per-selection runs agree for every classifier, model and
selection. -/
theorem cursorWordRight_eq_cursorWordEndRight (ws : WordCharacterClassifier) (model : TextModel)
    (sel : Selection) :
    CursorWordRight.opts = ⟨false, WordNavigationType.WordEnd⟩ ∧
    CursorWordEndRight.opts = ⟨false, WordNavigationType.WordEnd⟩ ∧
    MoveWordCommand.runOne WordRightCommand.move CursorWordRight.opts ws model sel =
      MoveWordCommand.runOne WordRightCommand.move CursorWordEndRight.opts ws model sel :=
  ⟨rfl, rfl, rfl⟩

/-- C2: the accessibility word-navigation commands compute their result
with the classifier built from the DEFAULT wordSeparators configuration
value, and the caller-supplied classifier argument has no effect on the
result (shown for CursorWordAccessibilityLeft/Right and their Select
variants). -/
theorem accessibility_commands_use_default_separators (ws wsB : WordCharacterClassifier)
    (model : TextModel) (pos : Position) (nav : WordNavigationType) :
    CursorWordAccessibilityLeft.move ws model pos
        CursorWordAccessibilityLeft.opts.wordNavigationType =
      WordOperations.moveWordLeft (getMapForWordSeparators defaultWordSeparators) model pos
        WordNavigationType.WordAccessibility ∧
    CursorWordAccessibilityLeftSelect.move ws model pos
        CursorWordAccessibilityLeftSelect.opts.wordNavigationType =
      WordOperations.moveWordLeft (getMapForWordSeparators defaultWordSeparators) model pos
        WordNavigationType.WordAccessibility ∧
    CursorWordAccessibilityRight.move ws model pos
        CursorWordAccessibilityRight.opts.wordNavigationType =
      WordOperations.moveWordRight (getMapForWordSeparators defaultWordSeparators) model pos
        WordNavigationType.WordAccessibility ∧
    CursorWordAccessibilityRightSelect.move ws model pos
        CursorWordAccessibilityRightSelect.opts.wordNavigationType =
      WordOperations.moveWordRight (getMapForWordSeparators defaultWordSeparators) model pos
        WordNavigationType.WordAccessibility ∧
    CursorWordAccessibilityLeft.move ws model pos nav =
      CursorWordAccessibilityLeft.move wsB model pos nav ∧
    CursorWordAccessibilityLeftSelect.move ws model pos nav =
      CursorWordAccessibilityLeftSelect.move wsB model pos nav ∧
    CursorWordAccessibilityRight.move ws model pos nav =
      CursorWordAccessibilityRight.move wsB model pos nav ∧
    CursorWordAccessibilityRightSelect.move ws model pos nav =
      CursorWordAccessibilityRightSelect.move wsB model pos nav :=
  ⟨rfl, rfl, rfl, rfl, rfl, rfl, rfl, rfl⟩

/-- C8: classifier construction is deterministic in the separator string:
classifiers constructed from equal separator strings assign every code
point the same class. -/
theorem classifier_construction_deterministic (s1 s2 : List Nat) (c : Nat) (h : s1 = s2) :
    (getMapForWordSeparators s1).get c = (getMapForWordSeparators s2).get c := by
  subst h; rfl

/-- Witness for C8 at a separator string with duplicate characters. -/
theorem classifier_construction_deterministic_witness :
    (getMapForWordSeparators [40, 40]).get 40 = (getMapForWordSeparators [40, 40]).get 40 ∧
    (getMapForWordSeparators [40, 40]).get 40 = CharacterClass.WordSeparator :=
  ⟨classifier_construction_deterministic [40, 40] [40, 40] 40 rfl, by decide⟩

/-- C1 amended: the command bound to Ctrl+Left (CursorWordLeft) computes
its boundary with WordStartFast, but the command bound to Ctrl+Right
(CursorWordEndRight) computes its boundary with WordEnd, for every
classifier, model and position. -/
theorem ctrlLeftRight_navigation_types (ws : WordCharacterClassifier) (model : TextModel)
    (pos : Position) :
    CursorWordLeft.opts.wordNavigationType = WordNavigationType.WordStartFast ∧
    CursorWordEndRight.opts.wordNavigationType = WordNavigationType.WordEnd ∧
    WordLeftCommand.move ws model pos CursorWordLeft.opts.wordNavigationType =
      WordOperations.moveWordLeft ws model pos WordNavigationType.WordStartFast ∧
    WordRightCommand.move ws model pos CursorWordEndRight.opts.wordNavigationType =
      WordOperations.moveWordRight ws model pos WordNavigationType.WordEnd :=
  ⟨rfl, rfl, rfl, rfl⟩

/-- C1 counterexample: on the one-line buffer "ab cd" at position (1,1),
the Ctrl+Right command (CursorWordEndRight) does not compute its boundary
with WordStartFast: its WordEnd result (1,3) differs from the WordStartFast
result (1,4). -/
theorem ctrlRight_not_wordStartFast_counterexample :
    WordRightCommand.move (getMapForWordSeparators defaultWordSeparators)
        ⟨[[97, 98, 32, 99, 100]]⟩ ⟨1, 1⟩ CursorWordEndRight.opts.wordNavigationType ≠
      WordOperations.moveWordRight (getMapForWordSeparators defaultWordSeparators)
        ⟨[[97, 98, 32, 99, 100]]⟩ ⟨1, 1⟩ WordNavigationType.WordStartFast := by
  decide

/-- C6: word movement is the identity at the document extremities: for
every classifier, model and navigation type, moveWordLeft at (1,1) returns
(1,1), and moveWordRight at the last column of the last line returns that
same position. -/
theorem moveWord_identity_at_document_extremities (ws : WordCharacterClassifier)
    (model : TextModel) (nav : WordNavigationType) :
    WordOperations.moveWordLeft ws model ⟨1, 1⟩ nav = ⟨1, 1⟩ ∧
    WordOperations.moveWordRight ws model
        ⟨model.getLineCount, model.getLineMaxColumn model.getLineCount⟩ nav =
      ⟨model.getLineCount, model.getLineMaxColumn model.getLineCount⟩ := by
  constructor
  · rfl
  · unfold WordOperations.moveWordRight
    simp

/-- C5: for every non-empty selection, the core deletion computations
return exactly the selection's own range, for every navigation type and
every whitespace-heuristics and auto-closing-pair configuration carried by
the context. -/
theorem deleteWord_nonempty_selection (ctx : DeleteWordContext) (nav : WordNavigationType)
    (h : ctx.selection.isEmpty = false) :
    WordOperations.deleteWordLeft ctx nav = some ctx.selection.toRange ∧
    WordOperations.deleteWordRight ctx nav = some ctx.selection.toRange := by
  unfold WordOperations.deleteWordLeft WordOperations.deleteWordRight
  simp [h]

/-- Witness for C5 on a concrete non-empty selection. -/
theorem deleteWord_nonempty_selection_witness :
    Selection.isEmpty ⟨1, 1, 1, 2⟩ = false ∧
    WordOperations.deleteWordLeft
        ⟨getMapForWordSeparators [], ⟨[[97, 98]]⟩, ⟨1, 1, 1, 2⟩, true, true, [], []⟩
        WordNavigationType.WordStart = some (Selection.toRange ⟨1, 1, 1, 2⟩) ∧
    WordOperations.deleteWordRight
        ⟨getMapForWordSeparators [], ⟨[[97, 98]]⟩, ⟨1, 1, 1, 2⟩, true, true, [], []⟩
        WordNavigationType.WordEnd = some (Selection.toRange ⟨1, 1, 1, 2⟩) :=
  ⟨by decide,
   (deleteWord_nonempty_selection _ WordNavigationType.WordStart (by decide)).1,
   (deleteWord_nonempty_selection _ WordNavigationType.WordEnd (by decide)).2⟩

/-- C3: when the core deletion computation signals no boundary (none), the
left-deletion command substitutes the zero-width range at (1,1) and the
right-deletion command substitutes the zero-width range at the last line's
max column; in every other case the commands return the core's range
unchanged. -/
theorem deleteWordCommands_boundary_fallback (ctx : DeleteWordContext)
    (nav : WordNavigationType) :
    (WordOperations.deleteWordLeft ctx nav = none →
      DeleteWordLeftCommand.delete ctx nav = ⟨1, 1, 1, 1⟩) ∧
    (∀ r, WordOperations.deleteWordLeft ctx nav = some r →
      DeleteWordLeftCommand.delete ctx nav = r) ∧
    (WordOperations.deleteWordRight ctx nav = none →
      DeleteWordRightCommand.delete ctx nav =
        ⟨ctx.model.getLineCount, ctx.model.getLineMaxColumn ctx.model.getLineCount,
          ctx.model.getLineCount, ctx.model.getLineMaxColumn ctx.model.getLineCount⟩) ∧
    (∀ r, WordOperations.deleteWordRight ctx nav = some r →
      DeleteWordRightCommand.delete ctx nav = r) := by
  refine ⟨?_, ?_, ?_, ?_⟩
  · intro h; simp [DeleteWordLeftCommand.delete, h]
  · intro r h; simp [DeleteWordLeftCommand.delete, h]
  · intro h; simp [DeleteWordRightCommand.delete, h]
  · intro r h; simp [DeleteWordRightCommand.delete, h]

/-- Witness for C3: the no-boundary cases at the document boundaries of a
one-line empty buffer, and pass-through cases on a two-letter buffer. -/
theorem deleteWordCommands_boundary_fallback_witness :
    DeleteWordLeftCommand.delete
        ⟨getMapForWordSeparators [], ⟨[[]]⟩, ⟨1, 1, 1, 1⟩, false, false, [], []⟩
        WordNavigationType.WordStart = ⟨1, 1, 1, 1⟩ ∧
    DeleteWordRightCommand.delete
        ⟨getMapForWordSeparators [], ⟨[[]]⟩, ⟨1, 1, 1, 1⟩, false, false, [], []⟩
        WordNavigationType.WordEnd = ⟨1, 1, 1, 1⟩ ∧
    DeleteWordLeftCommand.delete
        ⟨getMapForWordSeparators [], ⟨[[97, 98]]⟩, ⟨1, 2, 1, 2⟩, false, false, [], []⟩
        WordNavigationType.WordStart = ⟨1, 1, 1, 2⟩ ∧
    DeleteWordRightCommand.delete
        ⟨getMapForWordSeparators [], ⟨[[97, 98]]⟩, ⟨1, 2, 1, 2⟩, false, false, [], []⟩
        WordNavigationType.WordEnd = ⟨1, 2, 1, 3⟩ :=
  ⟨(deleteWordCommands_boundary_fallback _ _).1 (by decide),
   (deleteWordCommands_boundary_fallback _ _).2.2.1 (by decide),
   (deleteWordCommands_boundary_fallback _ _).2.1 ⟨1, 1, 1, 2⟩ (by decide),
   (deleteWordCommands_boundary_fallback _ _).2.2.2 ⟨1, 2, 1, 3⟩ (by decide)⟩

/-- C4 amended: for every collapsed selection with whitespace heuristics
disabled AND no auto-closing-pair deletion applying, the left-deletion
command with WordStart navigation returns the range from the moveWordLeft
WordStart position to the cursor, and the right-deletion command with
WordEnd navigation returns the range from the cursor to the moveWordRight
WordEnd position; and the default DeleteWordLeft/DeleteWordRight commands
are wired with WordStart (left) / WordEnd (right) and whitespace
heuristics enabled. -/
theorem deleteWord_collapsed_no_heuristics (ctx : DeleteWordContext)
    (hempty : ctx.selection.isEmpty = true)
    (hws : ctx.whitespaceHeuristics = false)
    (hauto : isAutoClosingPairDelete ctx = false) :
    DeleteWordLeftCommand.delete ctx WordNavigationType.WordStart =
      mkRangePos
        (WordOperations.moveWordLeft ctx.wordSeparators ctx.model ctx.selection.getPosition
          WordNavigationType.WordStart)
        ctx.selection.getPosition ∧
    DeleteWordRightCommand.delete ctx WordNavigationType.WordEnd =
      mkRangePos ctx.selection.getPosition
        (WordOperations.moveWordRight ctx.wordSeparators ctx.model ctx.selection.getPosition
          WordNavigationType.WordEnd) ∧
    DeleteWordLeft.opts = ⟨true, WordNavigationType.WordStart⟩ ∧
    DeleteWordRight.opts = ⟨true, WordNavigationType.WordEnd⟩ := by
  refine ⟨?_, ?_, rfl, rfl⟩
  · unfold DeleteWordLeftCommand.delete WordOperations.deleteWordLeft
    by_cases hpos : ctx.selection.getPosition.lineNumber = 1 ∧
        ctx.selection.getPosition.column = 1
    · obtain ⟨h1, h2⟩ := hpos
      unfold WordOperations.moveWordLeft
      simp [hempty, hauto, hws, h1, h2, mkRangePos]
    · simp [hempty, hauto, hws, hpos]
  · unfold DeleteWordRightCommand.delete WordOperations.deleteWordRight
    by_cases hpos : ctx.selection.getPosition.lineNumber = ctx.model.getLineCount ∧
        ctx.selection.getPosition.column =
          ctx.model.getLineMaxColumn ctx.selection.getPosition.lineNumber
    · obtain ⟨h1, h2⟩ := hpos
      unfold WordOperations.moveWordRight
      simp [hempty, hws, h2, mkRangePos, h1.symm]
    · simp [hempty, hws, hpos]

/-- Witness for C4 (amended) on the one-line buffer "ab cd" with a
collapsed cursor at (1,4). -/
theorem deleteWord_collapsed_no_heuristics_witness :
    DeleteWordLeftCommand.delete
        ⟨getMapForWordSeparators [], ⟨[[97, 98, 32, 99, 100]]⟩, ⟨1, 4, 1, 4⟩, false, false, [], []⟩
        WordNavigationType.WordStart = ⟨1, 1, 1, 4⟩ ∧
    DeleteWordRightCommand.delete
        ⟨getMapForWordSeparators [], ⟨[[97, 98, 32, 99, 100]]⟩, ⟨1, 4, 1, 4⟩, false, false, [], []⟩
        WordNavigationType.WordEnd = ⟨1, 4, 1, 6⟩ :=
  ⟨(deleteWord_collapsed_no_heuristics _ (by decide) (by decide) (by decide)).1,
   (deleteWord_collapsed_no_heuristics _ (by decide) (by decide) (by decide)).2.1⟩

/-- C4 counterexample: a collapsed cursor at (1,2) between a recorded
auto-inserted pair "(" ")" with auto-closing deletion enabled and
whitespace heuristics disabled: the left-deletion command returns the
widened pair range (1,1)-(1,3), not the range from the moveWordLeft
WordStart position to the cursor (which is (1,1)-(1,2)). -/
theorem deleteWordLeft_autoClosing_counterexample :
    Selection.isEmpty ⟨1, 2, 1, 2⟩ = true ∧
    DeleteWordLeftCommand.delete
        ⟨getMapForWordSeparators defaultWordSeparators, ⟨[[40, 41]]⟩, ⟨1, 2, 1, 2⟩, false, true,
          [⟨40, 41⟩], [⟨1, 2⟩]⟩ WordNavigationType.WordStart ≠
      mkRangePos
        (WordOperations.moveWordLeft (getMapForWordSeparators defaultWordSeparators)
          ⟨[[40, 41]]⟩ ⟨1, 2⟩ WordNavigationType.WordStart)
        ⟨1, 2⟩ := by
  constructor
  · decide
  · decide

/-- A Regular class at an index implies the index is within the line (out
of range indices read as Whitespace). -/
theorem classAt_regular_lt_length (cs : List CharacterClass) (i : Nat)
    (h : classAt cs i = CharacterClass.Regular) : i < cs.length := by
  by_contra hge
  rw [classAt, List.getD_eq_default _ _ (Nat.le_of_not_lt hge)] at h
  exact CharacterClass.noConfusion h

/-- Propositional unfolding of the WordStart boundary predicate. -/
theorem isWordStartBoundary_iff (cs : List CharacterClass) (c : Nat) :
    isWordStartBoundary cs c = true ↔
      1 ≤ c ∧ c ≤ cs.length ∧ classAt cs (c - 1) = CharacterClass.Regular ∧
        (c = 1 ∨ classAt cs (c - 2) ≠ CharacterClass.Regular) := by
  simp [isWordStartBoundary, and_assoc]

/-- Specification of the upward linear scan when it finds a column: the
column satisfies the predicate, lies in the scanned interval, and is the
least such column. -/
theorem firstBoundaryFrom_some_spec (p : Nat → Bool) :
    ∀ (n c d : Nat), firstBoundaryFrom p c n = some d →
      p d = true ∧ c ≤ d ∧ d < c + n ∧ ∀ x, c ≤ x → x < d → p x = false := by
  intro n
  induction n with
  | zero =>
    intro c d h
    exact absurd h (by simp [firstBoundaryFrom])
  | succ n ih =>
    intro c d h
    simp only [firstBoundaryFrom] at h
    by_cases hp : p c = true
    · rw [if_pos hp] at h
      obtain rfl : c = d := Option.some.inj h
      exact ⟨hp, Nat.le_refl c, by omega, fun x hx1 hx2 => absurd hx1 (by omega)⟩
    · rw [if_neg hp] at h
      obtain ⟨hpd, hcd, hub, hmin⟩ := ih (c + 1) d h
      refine ⟨hpd, by omega, by omega, fun x hx1 hx2 => ?_⟩
      rcases Nat.eq_or_lt_of_le hx1 with hxe | hxl
      · subst hxe
        cases hx : p c
        · rfl
        · exact absurd hx hp
      · exact hmin x hxl hx2

/-- Specification of the upward linear scan when it finds nothing: no
column of the scanned interval satisfies the predicate. -/
theorem firstBoundaryFrom_none_spec (p : Nat → Bool) :
    ∀ (n c : Nat), firstBoundaryFrom p c n = none →
      ∀ x, c ≤ x → x < c + n → p x = false := by
  intro n
  induction n with
  | zero =>
    intro c _ x hx1 hx2
    omega
  | succ n ih =>
    intro c h x hx1 hx2
    simp only [firstBoundaryFrom] at h
    by_cases hp : p c = true
    · rw [if_pos hp] at h
      exact Option.noConfusion h
    · rw [if_neg hp] at h
      rcases Nat.eq_or_lt_of_le hx1 with hxe | hxl
      · subst hxe
        cases hx : p c
        · rfl
        · exact absurd hx hp
      · exact ih (c + 1) h x hxl (by omega)

/-- Specification of the rightward boundary search: the result is strictly
right of col, at most maxC, and no column strictly between col and the result
satisfies the predicate. -/
theorem firstBoundaryIn_spec (p : Nat → Bool) (col maxC : Nat) (h : col < maxC) :
    col < firstBoundaryIn p col maxC ∧ firstBoundaryIn p col maxC ≤ maxC ∧
      ∀ x, col < x → x < firstBoundaryIn p col maxC → p x = false := by
  unfold firstBoundaryIn
  cases hfb : firstBoundaryFrom p (col + 1) (maxC - col) with
  | none =>
    have hnone := firstBoundaryFrom_none_spec p (maxC - col) (col + 1) hfb
    simp only [Option.getD_none]
    exact ⟨h, Nat.le_refl maxC, fun x hx1 hx2 => hnone x (by omega) (by omega)⟩
  | some d =>
    obtain ⟨hpd, hcd, hub, hmin⟩ := firstBoundaryFrom_some_spec p (maxC - col) (col + 1) d hfb
    simp only [Option.getD_some]
    exact ⟨by omega, by omega, fun x hx1 hx2 => hmin x (by omega) hx2⟩

/-- C7: for every position strictly inside a maximal run of Regular-class
characters on a line, moveWordRight with WordStart navigation followed by
moveWordLeft with WordStart navigation returns the start column of that
Regular run.  The run is the column interval [s, e]; maximality is
expressed by the non-Regular class just before s and just after e (line
boundaries reading as Whitespace). -/
theorem moveWordRight_then_left_wordStart (ws : WordCharacterClassifier) (model : TextModel)
    (ln s e col : Nat)
    (hrun : ∀ c, s ≤ c → c ≤ e →
      classAt (lineClasses ws model ln) (c - 1) = CharacterClass.Regular)
    (hleft : s = 1 ∨ classAt (lineClasses ws model ln) (s - 2) ≠ CharacterClass.Regular)
    (hright : classAt (lineClasses ws model ln) e ≠ CharacterClass.Regular)
    (hs : 1 ≤ s) (hsc : s < col) (hce : col ≤ e) :
    WordOperations.moveWordLeft ws model
        (WordOperations.moveWordRight ws model ⟨ln, col⟩ WordNavigationType.WordStart)
        WordNavigationType.WordStart = ⟨ln, s⟩ := by
  have hse : s ≤ e := by omega
  have heLen : e ≤ (lineClasses ws model ln).length := by
    have := classAt_regular_lt_length (lineClasses ws model ln) (e - 1)
      (hrun e hse (Nat.le_refl e))
    omega
  have hmaxC : model.getLineMaxColumn ln = (lineClasses ws model ln).length + 1 := by
    simp [TextModel.getLineMaxColumn, lineClasses]
  have hcolmax : ¬ model.getLineMaxColumn ln ≤ col := by omega
  have hstep1 : WordOperations.moveWordRight ws model ⟨ln, col⟩ WordNavigationType.WordStart =
      ⟨ln, firstBoundaryIn (isWordStartBoundary (lineClasses ws model ln)) col
        (model.getLineMaxColumn ln)⟩ := by
    simp only [WordOperations.moveWordRight, boundaryStop]
    rw [if_neg hcolmax]
  obtain ⟨hc2a, hc2b, hc2min⟩ :=
    firstBoundaryIn_spec (isWordStartBoundary (lineClasses ws model ln)) col
      (model.getLineMaxColumn ln) (by omega)
  have hc2gt1 : ¬ firstBoundaryIn (isWordStartBoundary (lineClasses ws model ln)) col
      (model.getLineMaxColumn ln) ≤ 1 := by omega
  have hstep2 : WordOperations.moveWordLeft ws model
      ⟨ln, firstBoundaryIn (isWordStartBoundary (lineClasses ws model ln)) col
        (model.getLineMaxColumn ln)⟩ WordNavigationType.WordStart =
      ⟨ln, lastBoundaryBefore (isWordStartBoundary (lineClasses ws model ln))
        (firstBoundaryIn (isWordStartBoundary (lineClasses ws model ln)) col
          (model.getLineMaxColumn ln))⟩ := by
    simp only [WordOperations.moveWordLeft, boundaryStop]
    rw [if_neg hc2gt1]
  rw [hstep1, hstep2]
  have hps : isWordStartBoundary (lineClasses ws model ln) s = true := by
    rw [isWordStartBoundary_iff]
    have hsreg := hrun s (Nat.le_refl s) hse
    have hslen := classAt_regular_lt_length (lineClasses ws model ln) (s - 1) hsreg
    exact ⟨hs, by omega, hsreg, hleft⟩
  have hnob : ∀ x, s < x →
      x < firstBoundaryIn (isWordStartBoundary (lineClasses ws model ln)) col
        (model.getLineMaxColumn ln) →
      isWordStartBoundary (lineClasses ws model ln) x = false := by
    intro x hx1 hx2
    by_cases hxc : x ≤ col
    · have hx2reg : classAt (lineClasses ws model ln) (x - 2) = CharacterClass.Regular := by
        have hxr := hrun (x - 1) (by omega) (by omega)
        have hxe : x - 1 - 1 = x - 2 := by omega
        rw [hxe] at hxr
        exact hxr
      cases hb : isWordStartBoundary (lineClasses ws model ln) x
      · rfl
      · exfalso
        obtain ⟨-, -, -, hdisj⟩ := (isWordStartBoundary_iff (lineClasses ws model ln) x).mp hb
        rcases hdisj with h1 | hne
        · omega
        · exact hne hx2reg
    · exact hc2min x (by omega) hx2
  have hlast : lastBoundaryBefore (isWordStartBoundary (lineClasses ws model ln))
      (firstBoundaryIn (isWordStartBoundary (lineClasses ws model ln)) col
        (model.getLineMaxColumn ln)) = s := by
    unfold lastBoundaryBefore
    have hfg : Nat.findGreatest (fun c => isWordStartBoundary (lineClasses ws model ln) c = true)
        (firstBoundaryIn (isWordStartBoundary (lineClasses ws model ln)) col
          (model.getLineMaxColumn ln) - 1) = s := by
      rw [Nat.findGreatest_eq_iff]
      refine ⟨by omega, fun _ => hps, ?_⟩
      intro n hn1 hn2 hpn
      rw [hnob n hn1 (by omega)] at hpn
      exact Bool.noConfusion hpn
    rw [hfg]
    exact Nat.max_eq_left hs
  rw [hlast]

/-- Witness for C7 on the one-line buffer "abc de" with the maximal Regular
run at columns 1..3 and the cursor strictly inside it at column 2. -/
theorem moveWordRight_then_left_wordStart_witness :
    WordOperations.moveWordLeft (getMapForWordSeparators defaultWordSeparators)
        ⟨[[97, 98, 99, 32, 100, 101]]⟩
        (WordOperations.moveWordRight (getMapForWordSeparators defaultWordSeparators)
          ⟨[[97, 98, 99, 32, 100, 101]]⟩ ⟨1, 2⟩ WordNavigationType.WordStart)
        WordNavigationType.WordStart = ⟨1, 1⟩ :=
  moveWordRight_then_left_wordStart (getMapForWordSeparators defaultWordSeparators)
    ⟨[[97, 98, 99, 32, 100, 101]]⟩ 1 1 3 2
    (by intro c h1 h2; interval_cases c <;> decide)
    (Or.inl rfl) (by decide) (by decide) (by decide) (by decide)
